import Mathlib

/-!
A shallow embedding of the BoxRFID reader-session core: the NFC service
(src/nfc-service.js) and the orchestration logic of the process entry
points (request coordinator, lazy session factory, auto-detect loop,
src/unnamed/part_000 and src/unnamed/part_001), together with theorems
checking the specification's claims about them.

JavaScript conventions carried into the embedding:
an absent / undefined / NaN value is modelled as `none`; the JS
truthiness test of an expression `v || d` selects the default when the
value is 0, the empty string, NaN, null or undefined; a store into a
Node `Buffer` cell keeps the value modulo 256.
-/

namespace BoxRFID

/-- A JavaScript Error value, identified by its message string. -/
structure JsError where
  message : String
deriving DecidableEq

/-- JS expression `v || d` over numbers: a falsy value (0, or `none`
modelling NaN / undefined) selects the default. -/
def jsNumOr (v : Option Int) (d : Int) : Int :=
  match v with
  | some n => if n = 0 then d else n
  | none => d

/-- JS expression `v || d` over bytes read out of a buffer: `none` models
an index past the end of a short read (undefined). -/
def jsByteOr (v : Option Nat) (d : Nat) : Nat :=
  match v with
  | some n => if n = 0 then d else n
  | none => d

/-- JS expression `v || d` over naturals (used for `reader.KEY_TYPE_A || 0x60`). -/
def jsNatOr (v : Option Nat) (d : Nat) : Nat :=
  match v with
  | some n => if n = 0 then d else n
  | none => d

/-- Storing a JS number into a `Buffer` (Uint8Array) cell keeps the value
modulo 256 (`buf[i] = v` applies ToUint8). -/
def jsToByte (v : Int) : Nat := (v % 256).toNat

/-- The record decoded from block 4 by `readTag` (nfc-service.js lines 112-115). -/
structure TagRecord where
  material : Nat
  color : Nat
  manufacturer : Nat
  rawData : List Nat
deriving DecidableEq

/-- Decoding of the block read by `readTag`:
`material = data[0] || 0`, `color = data[1] || 0`,
`manufacturer = data[2] || 1`, `rawData = Array.from(data)`. -/
def decodeTag (data : List Nat) : TagRecord :=
  { material := jsByteOr data[0]? 0
    color := jsByteOr data[1]? 0
    manufacturer := jsByteOr data[2]? 1
    rawData := data }

/-- The vendor key `D3 F7 D3 F7 D3 F7` (nfc-service.js line 92). -/
def vendorKey : List Nat := [0xD3, 0xF7, 0xD3, 0xF7, 0xD3, 0xF7]

/-- The factory-default key `FF FF FF FF FF FF` (nfc-service.js line 93). -/
def factoryKey : List Nat := [0xFF, 0xFF, 0xFF, 0xFF, 0xFF, 0xFF]

/-- One call to `reader.authenticate(block, keyType, key)`. -/
structure AuthAttempt where
  key : List Nat
  keyType : Nat
deriving DecidableEq

/-- The `for (const key of keys)` loop of `_authenticateBlock`
(nfc-service.js lines 95-104): `auth k = none` models a successful
driver authenticate call, `some e` a call that throws `e`. The first
component collects the attempts actually issued against the hardware. -/
def authLoop (kt : Nat) (auth : List Nat → Option JsError) :
    List (List Nat) → Option JsError → List AuthAttempt × Except JsError Bool
  | [], lastErr => ([], .error (lastErr.getD ⟨"NFC_AUTH_FAILED"⟩))
  | k :: rest, _ =>
    match auth k with
    | none => ([⟨k, kt⟩], .ok true)
    | some e =>
      let r := authLoop kt auth rest (some e)
      (⟨k, kt⟩ :: r.1, r.2)

/-- `_authenticateBlock` (nfc-service.js lines 87-105): fails with
`NFC_NOT_CONNECTED` when no reader handle is present, otherwise tries the
vendor key then the factory key with key type `reader.KEY_TYPE_A || 0x60`. -/
def authenticateBlock (readerPresent : Bool) (ktaParam : Option Nat)
    (auth : List Nat → Option JsError) : List AuthAttempt × Except JsError Bool :=
  if readerPresent = false then ([], .error ⟨"NFC_NOT_CONNECTED"⟩)
  else authLoop (jsNatOr ktaParam 0x60) auth [vendorKey, factoryKey] none

/-- `readTag` (nfc-service.js lines 107-117): connection check, the busy
lock of `_withLock`, authentication of block 4, then the 16-byte driver
read (`readData` is the outcome of `reader.read(4, 16, 16)`). -/
def readTag (connected svcBusy : Bool) (ktaParam : Option Nat)
    (auth : List Nat → Option JsError) (readData : Except JsError (List Nat)) :
    Except JsError TagRecord :=
  if connected = false then .error ⟨"NFC_NOT_CONNECTED"⟩
  else if svcBusy = true then .error ⟨"Busy"⟩
  else
    match (authenticateBlock connected ktaParam auth).2 with
    | .error e => .error e
    | .ok _ =>
      match readData with
      | .error e => .error e
      | .ok data => .ok (decodeTag data)

/-- The 16-byte buffer built by `writeTag` (nfc-service.js lines 123-126):
`Buffer.alloc(16, 0)` then `buf[0] = Number(materialCode) || 0`,
`buf[1] = Number(colorCode) || 0`, `buf[2] = Number(manufacturerCode) || 1`. -/
def writeBuf (materialCode colorCode manufacturerCode : Option Int) : List Nat :=
  (((List.replicate 16 0).set 0 (jsToByte (jsNumOr materialCode 0))).set 1
      (jsToByte (jsNumOr colorCode 0))).set 2 (jsToByte (jsNumOr manufacturerCode 1))

/-- `writeTag` (nfc-service.js lines 119-130): connection check, busy
lock, authentication of block 4, then `reader.write(4, buf, 16)`. On
success the value returned is the 16-byte buffer handed to the driver. -/
def writeTag (connected svcBusy : Bool) (ktaParam : Option Nat)
    (auth : List Nat → Option JsError)
    (materialCode colorCode manufacturerCode : Option Int) :
    Except JsError (List Nat) :=
  if connected = false then .error ⟨"NFC_NOT_CONNECTED"⟩
  else if svcBusy = true then .error ⟨"Busy"⟩
  else
    match (authenticateBlock connected ktaParam auth).2 with
    | .error e => .error e
    | .ok _ => .ok (writeBuf materialCode colorCode manufacturerCode)

/-- `toMessageKey` (src/unnamed/part_001 lines 58-70): exact match on the
error's message string. -/
def toMessageKey (e : JsError) : String :=
  if e.message = "Busy" then "busy"
  else if e.message = "NFC_NOT_CONNECTED" then "nfcNotConnected"
  else if e.message = "NFC_AUTH_FAILED" then "nfcAuthFailed"
  else "unknownError"

/-- The structured result returned to the renderer by the rfid-read /
rfid-write IPC handlers. -/
structure HandlerResult where
  success : Bool
  messageKey : Option String
  details : Option String
  data : Option TagRecord
deriving DecidableEq

/-- The `rfid-read` handler (src/unnamed/part_001 lines 202-213): busy
check, then delegation to `readTag`; a failure is converted into a
structured result and never rethrown. -/
def rfidRead (coordBusy connected svcBusy : Bool) (ktaParam : Option Nat)
    (auth : List Nat → Option JsError) (readData : Except JsError (List Nat)) :
    HandlerResult :=
  if coordBusy = true then ⟨false, some "busy", none, none⟩
  else
    match readTag connected svcBusy ktaParam auth readData with
    | .ok d => ⟨true, none, none, some d⟩
    | .error e => ⟨false, some (toMessageKey e), some e.message, none⟩

/-- The `rfid-write` handler (src/unnamed/part_001 lines 185-200): busy
check, then delegation to `writeTag`; a failure is converted into a
structured result and never rethrown. -/
def rfidWrite (coordBusy connected svcBusy : Bool) (ktaParam : Option Nat)
    (auth : List Nat → Option JsError)
    (materialCode colorCode manufacturerCode : Option Int) : HandlerResult :=
  if coordBusy = true then ⟨false, some "busy", none, none⟩
  else
    match writeTag connected svcBusy ktaParam auth materialCode colorCode manufacturerCode with
    | .ok _ => ⟨true, none, none, none⟩
    | .error e => ⟨false, some (toMessageKey e), some e.message, none⟩

/-- Claim C2: with a reader handle present, `_authenticateBlock` tries the
vendor key first and the factory-default key second, both with key type A
(`reader.KEY_TYPE_A || 0x60`); it returns success on the first key that
authenticates — the factory key is never attempted when the vendor key
succeeds — and when both keys fail it fails with the authentication
failure carrying the last underlying error. -/
theorem C2_auth_key_order (ktaParam : Option Nat) (auth : List Nat → Option JsError)
    (e1 e2 : JsError) :
    (auth vendorKey = none →
      authenticateBlock true ktaParam auth =
        ([⟨vendorKey, jsNatOr ktaParam 0x60⟩], .ok true)) ∧
    (auth vendorKey = some e1 → auth factoryKey = none →
      authenticateBlock true ktaParam auth =
        ([⟨vendorKey, jsNatOr ktaParam 0x60⟩, ⟨factoryKey, jsNatOr ktaParam 0x60⟩], .ok true)) ∧
    (auth vendorKey = some e1 → auth factoryKey = some e2 →
      authenticateBlock true ktaParam auth =
        ([⟨vendorKey, jsNatOr ktaParam 0x60⟩, ⟨factoryKey, jsNatOr ktaParam 0x60⟩],
          .error e2)) := by
  refine ⟨fun h1 => ?_, fun h1 h2 => ?_, fun h1 h2 => ?_⟩
  · simp [authenticateBlock, authLoop, h1]
  · simp [authenticateBlock, authLoop, h1, h2]
  · simp [authenticateBlock, authLoop, h1, h2]

theorem C2_auth_key_order_witness :
    authenticateBlock true none
        (fun k => if k = vendorKey then some ⟨"vendor rejected"⟩ else some ⟨"factory rejected"⟩) =
      ([⟨vendorKey, 96⟩, ⟨factoryKey, 96⟩], .error ⟨"factory rejected"⟩) :=
  (C2_auth_key_order none
      (fun k => if k = vendorKey then some ⟨"vendor rejected"⟩ else some ⟨"factory rejected"⟩)
      ⟨"vendor rejected"⟩ ⟨"factory rejected"⟩).2.2 (by decide) (by decide)

/-- Claim C3 counterexample: a manual read whose authentication rejects
both keys with a driver error (the AuthFailed situation of the claim)
yields message key "unknownError", not "nfcAuthFailed": the code rethrows
the raw last driver error, whose message is not "NFC_AUTH_FAILED". -/
theorem C3_counterexample :
    rfidRead false true false none (fun _ => some ⟨"SCARD_E_NOT_TRANSACTED"⟩)
        (.ok (List.replicate 16 0)) =
      ⟨false, some "unknownError", some "SCARD_E_NOT_TRANSACTED", none⟩ ∧
    ("unknownError" : String) ≠ "nfcAuthFailed" :=
  ⟨rfl, by decide⟩

/-- Claim C3 (amended): the coordinator maps a failure to its message key
by exact match on the failure's message string — "Busy" to "busy",
"NFC_NOT_CONNECTED" to "nfcNotConnected", "NFC_AUTH_FAILED" to
"nfcAuthFailed", anything else to "unknownError" — always including the
raw message as detail, and no failure escapes the handler. Since a
both-keys-rejected authentication propagates the last underlying driver
error, it reaches "nfcAuthFailed" only when that error's message is
exactly "NFC_AUTH_FAILED". -/
theorem C3_message_key_mapping (connected svcBusy : Bool) (ktaParam : Option Nat)
    (auth : List Nat → Option JsError) (readData : Except JsError (List Nat))
    (m c mf : Option Int) (e : JsError) :
    (rfidRead true connected svcBusy ktaParam auth readData =
      ⟨false, some "busy", none, none⟩) ∧
    (rfidWrite true connected svcBusy ktaParam auth m c mf =
      ⟨false, some "busy", none, none⟩) ∧
    (rfidRead false false svcBusy ktaParam auth readData =
      ⟨false, some "nfcNotConnected", some "NFC_NOT_CONNECTED", none⟩) ∧
    (rfidRead false true true ktaParam auth readData =
      ⟨false, some "busy", some "Busy", none⟩) ∧
    (readTag true false ktaParam auth readData = .error e →
      rfidRead false true false ktaParam auth readData =
        ⟨false, some (toMessageKey e), some e.message, none⟩) ∧
    (writeTag true false ktaParam auth m c mf = .error e →
      rfidWrite false true false ktaParam auth m c mf =
        ⟨false, some (toMessageKey e), some e.message, none⟩) ∧
    (toMessageKey e = "nfcAuthFailed" ↔ e.message = "NFC_AUTH_FAILED") := by
  refine ⟨rfl, rfl, rfl, rfl, fun h => ?_, fun h => ?_, ?_⟩
  · simp [rfidRead, h]
  · simp [rfidWrite, h]
  · unfold toMessageKey
    split_ifs with h1 h2 h3
    · rw [h1]; decide
    · rw [h2]; decide
    · simp [h3]
    · constructor
      · intro hh; exact absurd hh (by decide)
      · intro hh; exact absurd hh h3

theorem C3_message_key_mapping_witness :
    rfidRead false true false none (fun _ => some ⟨"Transmit error"⟩) (.ok []) =
      ⟨false, some (toMessageKey ⟨"Transmit error"⟩), some "Transmit error", none⟩ :=
  (C3_message_key_mapping true false none (fun _ => some ⟨"Transmit error"⟩) (.ok [])
    none none none ⟨"Transmit error"⟩).2.2.2.2.1 (by rfl)

/-- Claim C4 counterexample: on a full 16-byte block whose byte 2 is
present and zero, `readTag` decodes manufacturer as 1 — the default IS
substituted for a zero byte (`data[2] || 1`), contradicting the claim
that it is only used when the byte is absent from a short read. -/
theorem C4_counterexample :
    (decodeTag [7, 3, 0, 0, 0, 0, 0, 0, 0, 0, 0, 0, 0, 0, 0, 0]).manufacturer = 1 ∧
    [7, 3, 0, 0, 0, 0, 0, 0, 0, 0, 0, 0, 0, 0, 0, 0].getD 2 0 = 0 ∧
    (decodeTag [7, 3, 0, 0, 0, 0, 0, 0, 0, 0, 0, 0, 0, 0, 0, 0]).manufacturer ≠
      [7, 3, 0, 0, 0, 0, 0, 0, 0, 0, 0, 0, 0, 0, 0, 0].getD 2 0 := by
  decide

/-- Claim C4 (amended): every successful `readTag` on a 16-byte block
decodes byte 0 as material and byte 1 as color unchanged (their `|| 0`
default is the identity on bytes), returns the raw block, and decodes
byte 2 as manufacturer except that the default 1 is substituted whenever
the byte value is zero (as well as when it is absent from a short read). -/
theorem C4_decode_defaults (ktaParam : Option Nat) (auth : List Nat → Option JsError)
    (data : List Nat) (r : TagRecord)
    (hlen : data.length = 16)
    (hr : readTag true false ktaParam auth (.ok data) = .ok r) :
    r.material = data.getD 0 0 ∧
    r.color = data.getD 1 0 ∧
    r.manufacturer = (if data.getD 2 0 = 0 then 1 else data.getD 2 0) ∧
    r.rawData = data := by
  have hd : r = decodeTag data := by
    unfold readTag at hr
    simp only [Bool.false_eq_true, if_false, if_true, reduceIte] at hr
    cases hab : (authenticateBlock true ktaParam auth).2 with
    | error e => rw [hab] at hr; cases hr
    | ok b => rw [hab] at hr; cases hr; rfl
  subst hd
  have h0 : (0 : Nat) < data.length := by omega
  have h1 : (1 : Nat) < data.length := by omega
  have h2 : (2 : Nat) < data.length := by omega
  have e0 : data[0]? = some (data.getD 0 0) := by
    rw [List.getElem?_eq_getElem h0, List.getD_eq_getElem data 0 h0]
  have e1 : data[1]? = some (data.getD 1 0) := by
    rw [List.getElem?_eq_getElem h1, List.getD_eq_getElem data 0 h1]
  have e2 : data[2]? = some (data.getD 2 0) := by
    rw [List.getElem?_eq_getElem h2, List.getD_eq_getElem data 0 h2]
  refine ⟨?_, ?_, ?_, rfl⟩
  · show jsByteOr data[0]? 0 = data.getD 0 0
    rw [e0]
    show (if data.getD 0 0 = 0 then 0 else data.getD 0 0) = data.getD 0 0
    split <;> omega
  · show jsByteOr data[1]? 0 = data.getD 1 0
    rw [e1]
    show (if data.getD 1 0 = 0 then 0 else data.getD 1 0) = data.getD 1 0
    split <;> omega
  · show jsByteOr data[2]? 1 = if data.getD 2 0 = 0 then 1 else data.getD 2 0
    rw [e2]; rfl

theorem C4_decode_defaults_witness :
    (decodeTag [9, 8, 7, 0, 0, 0, 0, 0, 0, 0, 0, 0, 0, 0, 0, 0]).manufacturer =
      (if [9, 8, 7, 0, 0, 0, 0, 0, 0, 0, 0, 0, 0, 0, 0, 0].getD 2 0 = 0 then 1
        else [9, 8, 7, 0, 0, 0, 0, 0, 0, 0, 0, 0, 0, 0, 0, 0].getD 2 0) :=
  (C4_decode_defaults none (fun _ => none) [9, 8, 7, 0, 0, 0, 0, 0, 0, 0, 0, 0, 0, 0, 0, 0]
    (decodeTag [9, 8, 7, 0, 0, 0, 0, 0, 0, 0, 0, 0, 0, 0, 0, 0]) (by decide) (by rfl)).2.2.1

/-- Claim C9: writing material 5, color 2, manufacturer 1 produces the
16-byte block [5, 2, 1, 0, ..., 0], and reading that block back yields a
TagRecord with the same three fields, the raw block's first three bytes
being [5, 2, 1] and bytes 3-15 zero. -/
theorem C9_round_trip :
    writeTag true false none (fun _ => none) (some 5) (some 2) (some 1) =
      .ok (writeBuf (some 5) (some 2) (some 1)) ∧
    readTag true false none (fun _ => none)
        (.ok (writeBuf (some 5) (some 2) (some 1))) =
      .ok ⟨5, 2, 1, writeBuf (some 5) (some 2) (some 1)⟩ ∧
    (writeBuf (some 5) (some 2) (some 1)).take 3 = [5, 2, 1] ∧
    (writeBuf (some 5) (some 2) (some 1)).drop 3 = List.replicate 13 0 :=
  ⟨rfl, rfl, rfl, rfl⟩

/-- Claim C10: `writeTag` performs no range validation — a numeric value
outside 0-255 (negatives included) is stored truncated modulo 256 in the
corresponding byte of the 16-byte buffer, and non-numeric input (NaN
after numeric coercion, modelled as `none`) is coerced to 0 for material
and color and to 1 for manufacturer. -/
theorem C10_write_truncation (v : Int) (h : v < 0 ∨ 255 < v) :
    (writeBuf (some v) (some v) (some v)).getD 0 99 = (v % 256).toNat ∧
    (writeBuf (some v) (some v) (some v)).getD 1 99 = (v % 256).toNat ∧
    (writeBuf (some v) (some v) (some v)).getD 2 99 = (v % 256).toNat ∧
    (writeBuf (some v) (some v) (some v)).length = 16 ∧
    (writeBuf none none none).take 3 = [0, 0, 1] := by
  have hv : v ≠ 0 := by omega
  have h0 : jsNumOr (some v) 0 = v := by simp [jsNumOr, hv]
  have h1 : jsNumOr (some v) 1 = v := by simp [jsNumOr, hv]
  have hb : writeBuf (some v) (some v) (some v) =
      jsToByte (jsNumOr (some v) 0) :: jsToByte (jsNumOr (some v) 0) ::
        jsToByte (jsNumOr (some v) 1) :: List.replicate 13 0 := rfl
  rw [hb, h0, h1]
  exact ⟨rfl, rfl, rfl, rfl, rfl⟩

theorem C10_write_truncation_witness :
    ((300 : Int) < 0 ∨ (255 : Int) < 300) ∧
    (writeBuf (some 300) (some 300) (some 300)).getD 0 99 = ((300 : Int) % 256).toNat ∧
    ((300 : Int) % 256).toNat = 44 ∧
    (writeBuf (some (-5)) (some (-5)) (some (-5))).getD 0 99 = ((-5 : Int) % 256).toNat ∧
    ((-5 : Int) % 256).toNat = 251 :=
  ⟨by decide, (C10_write_truncation 300 (by decide)).1, by decide,
    (C10_write_truncation (-5) (by decide)).1, by decide⟩

/-- Character-list version of a starts-with test (helper for the error
classifier's substring matching). -/
def startsWithL : List Char → List Char → Bool
  | [], _ => true
  | _ :: _, [] => false
  | a :: as, b :: bs => a = b && startsWithL as bs

/-- Whether `pat` occurs as a contiguous run inside `s`. -/
def hasSubSeq (pat : List Char) : List Char → Bool
  | [] => pat.isEmpty
  | b :: bs => startsWithL pat (b :: bs) || hasSubSeq pat bs

/-- JS `msg.toUpperCase().includes(pat)`. -/
def upperContains (msg pat : String) : Bool :=
  hasSubSeq pat.toList msg.toUpper.toList

/-- The closed error taxonomy of `_setError` (nfc-service.js lines 34-40). -/
inductive ErrCode where
  | PCSC_SERVICE_NOT_RUNNING
  | NO_READERS
  | UNKNOWN
deriving DecidableEq

/-- Classification of a raw driver error message by case-insensitive
substring matching (nfc-service.js lines 33-40). -/
def classifyCode (msg : String) : ErrCode :=
  if upperContains msg "SCARD_E_NO_SERVICE" || upperContains msg "SERVICE NOT RUNNING" then
    .PCSC_SERVICE_NOT_RUNNING
  else if upperContains msg "SCARD_E_NO_READERS_AVAILABLE" ||
      upperContains msg "NO READERS AVAILABLE" then
    .NO_READERS
  else
    .UNKNOWN

/-- The stored classified error: `lastErrorCode`, `lastError`, `lastErrorAt`. -/
structure ErrInfo where
  code : ErrCode
  message : String
  atMillis : Nat
deriving DecidableEq

/-- The card object delivered by the driver's card-inserted event;
`uid` is `none` when the driver supplies none. -/
structure CardInfo where
  uid : Option String
deriving DecidableEq

/-- The reader handle: its name and the `reader.card` slot the session
writes (nfc-service.js lines 52, 57). -/
structure ReaderState where
  name : String
  card : Option CardInfo
deriving DecidableEq

/-- The `NFCService` session state (nfc-service.js constructor). -/
structure SessionState where
  isConnected : Bool
  currentReader : Option ReaderState
  lastUID : Option String
  lastError : Option ErrInfo
deriving DecidableEq

/-- Fresh session state after the constructor runs. -/
def initSession : SessionState :=
  { isConnected := false, currentReader := none, lastUID := none, lastError := none }

/-- Driver events handled by `_init` (nfc-service.js lines 44-76). -/
inductive DriverEvent where
  | readerAppeared (name : String)
  | cardInserted (card : CardInfo)
  | cardRemoved
  | readerError (msg : String) (now : Nat)
  | readerEnd
  | globalError (msg : String) (now : Nat)
deriving DecidableEq

/-- JS `card?.uid || null`: an absent or empty uid becomes null. -/
def jsUid (v : Option String) : Option String :=
  match v with
  | some s => if s = "" then none else some s
  | none => none

/-- The event handlers registered in `_init`. Reader-scoped events
(card, card.off, error, end) are registered on the reader delivered by
the reader event, so the model delivers them only while that reader is
current; they leave the state unchanged otherwise. -/
def applyEvent (s : SessionState) : DriverEvent → SessionState
  | .readerAppeared nm =>
    { s with isConnected := true, currentReader := some ⟨nm, none⟩, lastError := none }
  | .cardInserted c =>
    match s.currentReader with
    | some r => { s with lastUID := jsUid c.uid, currentReader := some { r with card := some c } }
    | none => s
  | .cardRemoved =>
    match s.currentReader with
    | some r => { s with lastUID := none, currentReader := some { r with card := none } }
    | none => s
  | .readerError msg now =>
    match s.currentReader with
    | some _ => { s with lastError := some ⟨classifyCode msg, msg, now⟩ }
    | none => s
  | .readerEnd =>
    match s.currentReader with
    | some _ => { s with isConnected := false, currentReader := none, lastUID := none }
    | none => s
  | .globalError msg now =>
    { isConnected := false, currentReader := none, lastUID := none,
      lastError := some ⟨classifyCode msg, msg, now⟩ }

/-- Folding a list of driver events over a session state. -/
def applyEvents (s : SessionState) (evs : List DriverEvent) : SessionState :=
  evs.foldl applyEvent s

/-- `cardPresent` as computed by `getStatus`:
`!!(this.currentReader && this.currentReader.card)`. -/
def cardPresentB (s : SessionState) : Bool :=
  match s.currentReader with
  | some r => r.card.isSome
  | none => false

/-- The snapshot returned by `getStatus` (nfc-service.js lines 132-142). -/
structure StatusSnapshot where
  connected : Bool
  readerName : Option String
  cardPresent : Bool
  uid : Option String
  errorCode : Option ErrCode
  errorMessage : Option String
  errorAt : Option Nat
deriving DecidableEq

/-- `getStatus` (nfc-service.js lines 132-142). -/
def getStatus (s : SessionState) : StatusSnapshot :=
  { connected := s.isConnected
    readerName := s.currentReader.map ReaderState.name
    cardPresent := cardPresentB s
    uid := s.lastUID
    errorCode := s.lastError.map ErrInfo.code
    errorMessage := s.lastError.map ErrInfo.message
    errorAt := s.lastError.map ErrInfo.atMillis }

/-- A driver event compatible with a single-reader well-formed trace:
a card-inserted event carries a non-empty UID, and a reader-appeared
event fires only while no reader is current. -/
def goodStep (s : SessionState) : DriverEvent → Bool
  | .readerAppeared _ => s.currentReader.isNone
  | .cardInserted c =>
    match c.uid with
    | some u => u != ""
    | none => false
  | _ => true

/-- All steps of a trace are well-formed from the given state. -/
def goodTrace (s : SessionState) : List DriverEvent → Bool
  | [] => true
  | e :: rest => goodStep s e && goodTrace (applyEvent s e) rest

/-- One well-formed step preserves the card/uid agreement invariant. -/
theorem goodStep_inv (s : SessionState) (e : DriverEvent)
    (hinv : cardPresentB s = s.lastUID.isSome) (hg : goodStep s e = true) :
    cardPresentB (applyEvent s e) = (applyEvent s e).lastUID.isSome := by
  cases e with
  | readerAppeared nm =>
    have hn : s.currentReader = none := by
      simpa [goodStep, Option.isNone_iff_eq_none] using hg
    simp [cardPresentB, hn] at hinv
    simp [applyEvent, cardPresentB, hinv.symm]
  | cardInserted c =>
    cases hr : s.currentReader with
    | none => simpa [applyEvent, hr] using hinv
    | some r =>
      cases hu : c.uid with
      | none => simp [goodStep, hu] at hg
      | some u =>
        have hne : u ≠ "" := by simpa [goodStep, hu] using hg
        simp [applyEvent, hr, hu, cardPresentB, jsUid, hne]
  | cardRemoved =>
    cases hr : s.currentReader with
    | none => simpa [applyEvent, hr] using hinv
    | some r => simp [applyEvent, hr, cardPresentB]
  | readerError msg now =>
    cases hr : s.currentReader with
    | none => simpa [applyEvent, hr] using hinv
    | some r =>
      simp [cardPresentB, hr] at hinv
      simp [applyEvent, hr, cardPresentB, hinv]
  | readerEnd =>
    cases hr : s.currentReader with
    | none => simpa [applyEvent, hr] using hinv
    | some r => simp [applyEvent, hr, cardPresentB]
  | globalError msg now => simp [applyEvent, cardPresentB]

/-- The invariant is preserved along any well-formed trace. -/
theorem goodTrace_inv (evs : List DriverEvent) :
    ∀ s : SessionState, cardPresentB s = s.lastUID.isSome →
      goodTrace s evs = true →
      cardPresentB (applyEvents s evs) = (applyEvents s evs).lastUID.isSome := by
  induction evs with
  | nil => intro s h _; simpa [applyEvents] using h
  | cons e rest ih =>
    intro s h hg
    rw [goodTrace, Bool.and_eq_true] at hg
    have hstep := goodStep_inv s e h hg.1
    simpa [applyEvents, List.foldl] using ih (applyEvent s e) hstep hg.2

/-- Claim C6 counterexample: a card-inserted event whose payload carries
no UID (the code itself guards for this with `card?.uid || null`) leaves
the session with a card handle present but `currentUID` absent, so the
claimed invariant fails after that event. -/
theorem C6_counterexample :
    cardPresentB (applyEvents initSession
        [.readerAppeared "ACR122U", .cardInserted ⟨none⟩]) = true ∧
    (applyEvents initSession
        [.readerAppeared "ACR122U", .cardInserted ⟨none⟩]).lastUID = none := by
  decide

/-- Claim C6 (amended): after every driver event of a well-formed trace —
every card-inserted event carries a non-empty UID and a reader-appeared
event fires only while no reader is current — the session state has the
card handle and `currentUID` both present or both absent; without the
UID assumption the invariant fails (see the counterexample). -/
theorem C6_card_uid_invariant (evs : List DriverEvent)
    (hg : goodTrace initSession evs = true) :
    cardPresentB (applyEvents initSession evs) =
      (applyEvents initSession evs).lastUID.isSome :=
  goodTrace_inv evs initSession (by decide) hg

theorem C6_card_uid_invariant_witness :
    cardPresentB (applyEvents initSession
        [.readerAppeared "ACR122U", .cardInserted ⟨some "04A1B2C3"⟩, .cardRemoved]) =
      (applyEvents initSession
        [.readerAppeared "ACR122U", .cardInserted ⟨some "04A1B2C3"⟩, .cardRemoved]).lastUID.isSome :=
  C6_card_uid_invariant
    [.readerAppeared "ACR122U", .cardInserted ⟨some "04A1B2C3"⟩, .cardRemoved] (by decide)

/-- The module-level state of the process entry point: the lazily created
service, the init-failure backoff bookkeeping of src/unnamed/part_001
lines 22-26, and a ghost counter of underlying construction attempts. -/
structure MainState where
  nfcService : Option SessionState
  nfcInitFailedAt : Nat
  nfcInitLastErr : Option JsError
  constructions : Nat
deriving DecidableEq

/-- Entry-point state at process start (no construction has happened;
`nfcInitFailedAt = 0` is the falsy initial value of the source). -/
def initMain : MainState := ⟨none, 0, none, 0⟩

/-- `tryGetNfcService` (src/unnamed/part_001 lines 28-30): returns the
existing service or null, never constructing. -/
def tryGetNfcService (st : MainState) : Option SessionState := st.nfcService

/-- The literal object returned by the part_001 `rfid-status` handler when
no service exists; its error fields are absent (undefined). -/
def disconnectedSnapshot : StatusSnapshot :=
  ⟨false, none, false, none, none, none, none⟩

/-- The `rfid-status` handler of src/unnamed/part_001 (lines 215-222):
uses the non-constructing accessor and falls back to the disconnected
snapshot. -/
def rfidStatusLazy (st : MainState) : MainState × StatusSnapshot :=
  match tryGetNfcService st with
  | none => (st, disconnectedSnapshot)
  | some s => (st, getStatus s)

/-- `getNfcService` of src/unnamed/part_000 (lines 23-26): constructs the
service whenever none exists. `ctor` is the session produced by
`new NFCService()`. -/
def getNfcServiceEager (st : MainState) (ctor : SessionState) : MainState × SessionState :=
  match st.nfcService with
  | some s => (st, s)
  | none => ({ st with nfcService := some ctor, constructions := st.constructions + 1 }, ctor)

/-- The `rfid-status` handler of src/unnamed/part_000 (lines 166-168):
`getNfcService().getStatus()`. -/
def rfidStatusEager (st : MainState) (ctor : SessionState) : MainState × StatusSnapshot :=
  ((getNfcServiceEager st ctor).1, getStatus (getNfcServiceEager st ctor).2)

/-- Backoff window of the lazy factory (src/unnamed/part_001 line 26). -/
def NFC_RETRY_AFTER_MS : Nat := 5000

/-- `getNfcService` of src/unnamed/part_001 (lines 32-55): return an
existing service; otherwise fail fast inside the backoff window unless
forced; otherwise attempt construction (`ctor` is the outcome of
`new NFCService()`), clearing the backoff state on success and recording
the failure time on failure. Nat subtraction truncates at 0, which agrees
with the source's signed comparison `(now - failedAt) < 5000` for every
clock reading. -/
def getNfcServiceLazy (st : MainState) (forceRetry : Bool) (now : Nat)
    (ctor : Except JsError SessionState) : MainState × Except JsError SessionState :=
  match st.nfcService with
  | some s => (st, .ok s)
  | none =>
    if forceRetry = false ∧ st.nfcInitFailedAt ≠ 0 ∧
        now - st.nfcInitFailedAt < NFC_RETRY_AFTER_MS then
      (st, .error ⟨"NFC_NOT_CONNECTED"⟩)
    else
      match ctor with
      | .ok s =>
        ({ st with
            nfcService := some s
            nfcInitFailedAt := 0
            nfcInitLastErr := none
            constructions := st.constructions + 1 }, .ok s)
      | .error e =>
        ({ st with
            nfcService := none
            nfcInitFailedAt := now
            nfcInitLastErr := some e
            constructions := st.constructions + 1 }, .error ⟨"NFC_NOT_CONNECTED"⟩)

/-- Claim C7 counterexample: the `rfid-status` handler of the
src/unnamed/part_000 entry point constructs the service when none exists
(one underlying construction is performed by a status call), so "the
status operation never triggers session construction" fails on that
handler. -/
theorem C7_counterexample :
    (rfidStatusEager initMain initSession).1.constructions = 1 ∧
    initMain.constructions = 0 ∧
    (rfidStatusEager initMain initSession).1.nfcService = some initSession := by
  decide

/-- Claim C7 (amended): the `rfid-status` handler of the lazy entry point
(src/unnamed/part_001) never triggers session construction — it leaves
the entry-point state untouched for every state — and when no session has
ever been constructed it returns the disconnected snapshot with
connected false, cardPresent false and uid null; the alternate entry
point src/unnamed/part_000 instead constructs the session on a status
call (see the counterexample). -/
theorem C7_status_no_construction (st : MainState) (h : st.nfcService = none) :
    (∀ st2 : MainState, (rfidStatusLazy st2).1 = st2 ∧
      (rfidStatusLazy st2).1.constructions = st2.constructions) ∧
    (rfidStatusLazy st).2 = disconnectedSnapshot ∧
    (rfidStatusLazy st).2.connected = false ∧
    (rfidStatusLazy st).2.cardPresent = false ∧
    (rfidStatusLazy st).2.uid = none := by
  constructor
  · intro st2
    cases h2 : st2.nfcService <;> simp [rfidStatusLazy, tryGetNfcService, h2]
  · simp [rfidStatusLazy, tryGetNfcService, h, disconnectedSnapshot]

theorem C7_status_no_construction_witness :
    (rfidStatusLazy initMain).2 = disconnectedSnapshot :=
  (C7_status_no_construction initMain rfl).2.1

/-- Claim C8: with no live service and a recorded construction failure at
time `t`, a non-forced request within 5000 ms fails with NotConnected and
performs no underlying construction attempt (the state, including the
attempt counter, is unchanged); a non-forced request at or after 5000 ms,
or any forced request, performs a new construction attempt; a successful
attempt clears the backoff state and returns the new service. -/
theorem C8_init_backoff (st : MainState) (t now : Nat)
    (ctor : Except JsError SessionState) (s2 : SessionState)
    (hsvc : st.nfcService = none) (ht : st.nfcInitFailedAt = t) (ht0 : t ≠ 0) :
    (now - t < 5000 →
      getNfcServiceLazy st false now ctor = (st, .error ⟨"NFC_NOT_CONNECTED"⟩)) ∧
    (5000 ≤ now - t →
      (getNfcServiceLazy st false now ctor).1.constructions = st.constructions + 1) ∧
    ((getNfcServiceLazy st true now ctor).1.constructions = st.constructions + 1) ∧
    (ctor = .ok s2 →
      (getNfcServiceLazy st true now ctor).1.nfcInitFailedAt = 0 ∧
      (getNfcServiceLazy st true now ctor).2 = .ok s2) := by
  refine ⟨fun hlt => ?_, fun hge => ?_, ?_, fun hok => ?_⟩
  · simp [getNfcServiceLazy, hsvc, ht, NFC_RETRY_AFTER_MS, ht0, hlt]
  · have hnlt : ¬(now - st.nfcInitFailedAt < NFC_RETRY_AFTER_MS) := by
      rw [ht]; simp only [NFC_RETRY_AFTER_MS]; omega
    simp only [getNfcServiceLazy, hsvc, hnlt, and_false, if_false]
    cases ctor <;> simp
  · simp only [getNfcServiceLazy, hsvc]
    rw [if_neg (by simp)]
    cases ctor <;> simp
  · subst hok
    simp only [getNfcServiceLazy, hsvc]
    rw [if_neg (by simp)]
    exact ⟨rfl, rfl⟩

theorem C8_init_backoff_witness :
    2000 - 1000 < 5000 ∧
    getNfcServiceLazy ⟨none, 1000, none, 0⟩ false 2000 (.ok initSession) =
      (⟨none, 1000, none, 0⟩, .error ⟨"NFC_NOT_CONNECTED"⟩) :=
  ⟨by decide,
    (C8_init_backoff ⟨none, 1000, none, 0⟩ 1000 2000 (.ok initSession) initSession
      rfl rfl (by decide)).1 (by decide)⟩

/-- The environment of one 200 ms auto-loop tick (src/unnamed/part_001
lines 143-173): whether auto mode is enabled, whether the shared busy
flag is set, whether `tryGetNfcService` returns a service, the UID
observed by `getCurrentUID`, and the outcome of `readTag` if reached. -/
structure TickInput where
  enabled : Bool
  busy : Bool
  svcPresent : Bool
  uid : Option String
  readResult : Except JsError TagRecord

/-- A payload sent through `sendAutoStatus`. -/
structure AutoNotif where
  present : Bool
  tagData : Option TagRecord
  error : Option String
deriving DecidableEq

/-- One tick of the auto loop, returning the new `lastAutoUID` and the
notifications emitted (src/unnamed/part_001 lines 143-173): a guarded
tick does nothing; a truthy UID different from `lastAutoUID` triggers a
read, updating `lastAutoUID` only on success; a falsy UID with a
recorded `lastAutoUID` notifies removal. -/
def tickStep (last : Option String) (i : TickInput) : Option String × List AutoNotif :=
  if i.enabled = false then (last, [])
  else if i.busy = true then (last, [])
  else if i.svcPresent = false then (last, [])
  else
    match i.uid with
    | some u =>
      if some u ≠ last then
        match i.readResult with
        | .ok d => (some u, [⟨true, some d, none⟩])
        | .error e => (last, [⟨true, none, some e.message⟩])
      else (last, [])
    | none =>
      match last with
      | some _ => (none, [⟨false, none, none⟩])
      | none => (last, [])

/-- A sequence of ticks, collecting all emitted notifications. -/
def runTicks (last : Option String) : List TickInput → Option String × List AutoNotif
  | [] => (last, [])
  | i :: rest =>
    let p := tickStep last i
    let q := runTicks p.1 rest
    (q.1, p.2 ++ q.2)

/-- A tick input on which the loop takes its main path and the read
succeeds. -/
def isOkB : Except JsError TagRecord → Bool
  | .ok _ => true
  | .error _ => false

/-- The tick is enabled, not busy, has a service, and its read succeeds. -/
def goodInput (i : TickInput) : Bool :=
  i.enabled && !i.busy && i.svcPresent && isOkB i.readResult

/-- Every tick of the list is a `goodInput`. -/
def allGood (inputs : List TickInput) : Bool := inputs.all goodInput

/-- Number of UID transitions along an observed UID sequence, starting
from a given last-seen UID (a transition is any change, arrival, change
of identity, or removal). -/
def countChanges (last : Option String) : List (Option String) → Nat
  | [] => 0
  | u :: rest => (if u != last then 1 else 0) + countChanges u rest

/-- A good tick records the observed UID and emits exactly one
notification when the UID changed, none otherwise. -/
theorem tickStep_good (last : Option String) (i : TickInput) (hg : goodInput i = true) :
    (tickStep last i).1 = i.uid ∧
    (tickStep last i).2.length = (if i.uid != last then 1 else 0) := by
  rw [goodInput, Bool.and_eq_true, Bool.and_eq_true, Bool.and_eq_true] at hg
  obtain ⟨⟨⟨he, hb⟩, hs⟩, hok⟩ := hg
  rw [Bool.not_eq_true'] at hb
  unfold tickStep
  rw [he, hb, hs]
  simp only [Bool.true_eq_false, if_false, Bool.false_eq_true]
  cases hu : i.uid with
  | some u =>
    by_cases hc : some u = last
    · simp [hc, bne_iff_ne]
    · cases hr : i.readResult with
      | error e => rw [hr] at hok; cases hok
      | ok d => simp [hc, Ne.symm hc, bne_iff_ne, Ne.intro hc]
  | none =>
    cases hl : last with
    | some y => simp [bne_iff_ne]
    | none => simp

/-- Along any all-good tick sequence, the recorded UID ends at the last
observed UID and the number of notifications equals the number of UID
transitions. -/
theorem runTicks_good (inputs : List TickInput) :
    ∀ last : Option String, allGood inputs = true →
      (runTicks last inputs).1 = (inputs.map TickInput.uid).getLastD last ∧
      (runTicks last inputs).2.length = countChanges last (inputs.map TickInput.uid) := by
  induction inputs with
  | nil => intro last _; exact ⟨rfl, rfl⟩
  | cons i rest ih =>
    intro last hg
    rw [allGood, List.all_cons, Bool.and_eq_true] at hg
    obtain ⟨h1, h2⟩ := tickStep_good last i hg.1
    obtain ⟨h3, h4⟩ := ih (tickStep last i).1 hg.2
    constructor
    · show (runTicks (tickStep last i).1 rest).1 = _
      rw [h3, h1, List.map_cons, List.getLastD_cons]
    · show ((tickStep last i).2 ++ (runTicks (tickStep last i).1 rest).2).length = _
      rw [List.length_append, h2, h4, h1, List.map_cons, countChanges]

/-- Claim C5 counterexample: two consecutive ticks observing the same
unchanged UID, whose reads fail, emit two present-true notifications
(the loop re-notifies because `lastAutoUID` is only updated on a
successful read), contradicting "repeated ticks observing an unchanged
UID produce zero notifications" and "exactly one notification per
distinct UID transition". -/
theorem C5_counterexample :
    (runTicks none
        [⟨true, false, true, some "04A1", .error ⟨"read failed"⟩⟩,
         ⟨true, false, true, some "04A1", .error ⟨"read failed"⟩⟩]).2 =
      [⟨true, none, some "read failed"⟩, ⟨true, none, some "read failed"⟩] ∧
    (runTicks none
        [⟨true, false, true, some "04A1", .error ⟨"read failed"⟩⟩,
         ⟨true, false, true, some "04A1", .error ⟨"read failed"⟩⟩]).2.length = 2 :=
  ⟨rfl, rfl⟩

/-- Claim C5 (amended): while auto-detect is enabled and ticks run with
the busy flag clear, a service present and every read succeeding, the
loop emits exactly one notification per distinct UID transition (one
present-true per arrival or identity change, one present-false per
removal) and a tick observing a UID equal to the recorded last-seen UID
emits nothing; when a read fails, the last-seen UID is not updated and
the present-true error notification repeats on following ticks until a
read succeeds (see the counterexample for the unamended reading). -/
theorem C5_auto_notifications (inputs : List TickInput) (last : Option String)
    (i : TickInput) (u y : String) (d : TagRecord)
    (hgood : allGood inputs = true) :
    ((runTicks last inputs).2.length = countChanges last (inputs.map TickInput.uid)) ∧
    ((runTicks last inputs).1 = (inputs.map TickInput.uid).getLastD last) ∧
    (i.uid = last → tickStep last i = (last, [])) ∧
    (goodInput i = true → i.uid = none → last = some y →
      tickStep last i = (none, [⟨false, none, none⟩])) ∧
    (goodInput i = true → i.readResult = .ok d → i.uid = some u → some u ≠ last →
      tickStep last i = (some u, [⟨true, some d, none⟩])) := by
  obtain ⟨h1, h2⟩ := runTicks_good inputs last hgood
  refine ⟨h2, h1, fun hu => ?_, fun hg hn hl => ?_, fun hg hr hu hne => ?_⟩
  · unfold tickStep
    cases he : i.enabled with
    | false => simp
    | true =>
      simp only [Bool.true_eq_false, if_false]
      cases hb : i.busy with
      | true => simp
      | false =>
        simp only [Bool.false_eq_true, if_false]
        cases hs : i.svcPresent with
        | false => simp
        | true =>
          simp only [Bool.true_eq_false, if_false]
          cases hu2 : i.uid with
          | some v => rw [hu2] at hu; simp [hu]
          | none => rw [hu2] at hu; rw [← hu]
  · rw [goodInput, Bool.and_eq_true, Bool.and_eq_true, Bool.and_eq_true] at hg
    obtain ⟨⟨⟨he, hb⟩, hs⟩, _⟩ := hg
    rw [Bool.not_eq_true'] at hb
    unfold tickStep
    rw [he, hb, hs, hn, hl]
    simp
  · rw [goodInput, Bool.and_eq_true, Bool.and_eq_true, Bool.and_eq_true] at hg
    obtain ⟨⟨⟨he, hb⟩, hs⟩, _⟩ := hg
    rw [Bool.not_eq_true'] at hb
    unfold tickStep
    rw [he, hb, hs, hu, hr]
    simp [hne]

theorem C5_auto_notifications_witness :
    (runTicks none
        [⟨true, false, true, some "04A1", .ok ⟨1, 2, 3, []⟩⟩,
         ⟨true, false, true, some "04A1", .ok ⟨1, 2, 3, []⟩⟩,
         ⟨true, false, true, none, .ok ⟨1, 2, 3, []⟩⟩]).2.length =
      countChanges none
        ([⟨true, false, true, some "04A1", .ok ⟨1, 2, 3, []⟩⟩,
          ⟨true, false, true, some "04A1", .ok ⟨1, 2, 3, []⟩⟩,
          ⟨true, false, true, none, .ok ⟨1, 2, 3, []⟩⟩].map TickInput.uid) :=
  (C5_auto_notifications
    [⟨true, false, true, some "04A1", .ok ⟨1, 2, 3, []⟩⟩,
     ⟨true, false, true, some "04A1", .ok ⟨1, 2, 3, []⟩⟩,
     ⟨true, false, true, none, .ok ⟨1, 2, 3, []⟩⟩]
    none ⟨true, false, true, none, .ok ⟨1, 2, 3, []⟩⟩ "x" "y" ⟨1, 2, 3, []⟩ (by decide)).1

/-- State shared between the request coordinator, the auto loop and the
service: the entry point's `isBusy` flag, the service's `_busy` lock, and
a ghost count of authenticate/read/write hardware sequences started but
not yet settled. -/
structure MutexState where
  coordBusy : Bool
  svcBusy : Bool
  inFlight : Nat
deriving DecidableEq

/-- The interleavable events of the single-threaded event loop: a manual
rfid-read or rfid-write request arriving, an auto-loop timer tick firing
(with its observed environment), and the settlement of the in-flight
hardware sequence. Because promise-continuation microtasks drain before
the next IPC request or timer tick, the synchronous suffix of an
operation (both finally blocks) runs atomically at settlement. -/
inductive MutexEvent where
  | manualRead (connected : Bool)
  | manualWrite (connected : Bool)
  | tick (enabled svcPresent newUid connected : Bool)
  | hwComplete
deriving DecidableEq

/-- Observable outcome of dispatching one event. -/
inductive MutexOutcome where
  | busyResult
  | notConnectedResult
  | svcBusyError
  | started
  | skipped
  | completed
deriving DecidableEq

/-- Initial shared state of the process. -/
def mutexInit : MutexState := ⟨false, false, 0⟩

/-- A manual request (src/unnamed/part_001 lines 185-213): an already-set
`isBusy` yields an immediate busy result; otherwise `isBusy` is taken and
the service operation runs — a missing reader or a held service lock
fails before any hardware call (the finally block restores `isBusy`, so
the state is net unchanged), and otherwise both flags are held while the
hardware sequence is in flight. -/
def manualStep (s : MutexState) (connected : Bool) : MutexState × MutexOutcome :=
  if s.coordBusy = true then (s, .busyResult)
  else if connected = false then (s, .notConnectedResult)
  else if s.svcBusy = true then (s, .svcBusyError)
  else (⟨true, true, s.inFlight + 1⟩, .started)

/-- One event dispatch. The tick guards follow src/unnamed/part_001 lines
145-151: disabled, busy, service absent or unchanged UID ticks do
nothing; otherwise the tick performs the same locked read as a manual
request. `hwComplete` settles the in-flight sequence, releasing the
service lock and then the coordinator flag. -/
def mutexStep (s : MutexState) : MutexEvent → MutexState × MutexOutcome
  | .manualRead c => manualStep s c
  | .manualWrite c => manualStep s c
  | .tick en sp nu c =>
    if en = false then (s, .skipped)
    else if s.coordBusy = true then (s, .skipped)
    else if sp = false then (s, .skipped)
    else if nu = false then (s, .skipped)
    else if c = false then (s, .notConnectedResult)
    else if s.svcBusy = true then (s, .svcBusyError)
    else (⟨true, true, s.inFlight + 1⟩, .started)
  | .hwComplete =>
    if s.inFlight = 0 then (s, .skipped)
    else (⟨false, false, s.inFlight - 1⟩, .completed)

/-- The state reached from process start by a list of events. -/
def runMutex (evs : List MutexEvent) : MutexState :=
  evs.foldl (fun s e => (mutexStep s e).1) mutexInit

/-- Invariant tying the coordinator flag to the hardware in-flight count. -/
def mutexInv (s : MutexState) : Prop :=
  (s.coordBusy = false → s.inFlight = 0) ∧ s.inFlight ≤ 1

/-- A manual request preserves the invariant. -/
theorem manualStep_inv (s : MutexState) (c : Bool) (h : mutexInv s) :
    mutexInv (manualStep s c).1 := by
  obtain ⟨h1, h2⟩ := h
  unfold manualStep
  split_ifs with hc hn hb
  · exact ⟨h1, h2⟩
  · exact ⟨h1, h2⟩
  · exact ⟨h1, h2⟩
  · refine ⟨fun hh => ?_, ?_⟩
    · cases hh
    · have hcf : s.coordBusy = false := by revert hc; cases s.coordBusy <;> simp
      have := h1 hcf
      show s.inFlight + 1 ≤ 1
      omega

/-- Every event preserves the invariant. -/
theorem mutexStep_inv (s : MutexState) (e : MutexEvent) (h : mutexInv s) :
    mutexInv (mutexStep s e).1 := by
  obtain ⟨h1, h2⟩ := h
  cases e with
  | manualRead c => exact manualStep_inv s c ⟨h1, h2⟩
  | manualWrite c => exact manualStep_inv s c ⟨h1, h2⟩
  | tick en sp nu c =>
    simp only [mutexStep]
    split_ifs with g1 g2 g3 g4 g5 g6
    · exact ⟨h1, h2⟩
    · exact ⟨h1, h2⟩
    · exact ⟨h1, h2⟩
    · exact ⟨h1, h2⟩
    · exact ⟨h1, h2⟩
    · exact ⟨h1, h2⟩
    · refine ⟨fun hh => ?_, ?_⟩
      · cases hh
      · have hcf : s.coordBusy = false := by revert g2; cases s.coordBusy <;> simp
        have := h1 hcf
        show s.inFlight + 1 ≤ 1
        omega
  | hwComplete =>
    simp only [mutexStep]
    split_ifs with hz
    · exact ⟨h1, h2⟩
    · refine ⟨fun _ => ?_, ?_⟩
      · show s.inFlight - 1 = 0
        omega
      · show s.inFlight - 1 ≤ 1
        omega

/-- The invariant holds in every reachable state. -/
theorem runMutex_inv (evs : List MutexEvent) : mutexInv (runMutex evs) := by
  have main : ∀ l : List MutexEvent, ∀ s : MutexState, mutexInv s →
      mutexInv (l.foldl (fun s2 e => (mutexStep s2 e).1) s) := by
    intro l
    induction l with
    | nil => intro s h; exact h
    | cons e rest ih => intro s h; exact ih (mutexStep s e).1 (mutexStep_inv s e h)
  exact main evs mutexInit ⟨fun _ => rfl, by decide⟩

/-- Claim C1: under every interleaving of manual read requests, manual
write requests, auto-detect ticks and hardware settlements, at most one
authenticate/read/write hardware sequence is in flight; and in any
reached state whose busy flag is set, a manual request returns the busy
result and an enabled tick does nothing, both leaving the state
unchanged instead of starting a second hardware sequence. -/
theorem C1_mutual_exclusion (evs : List MutexEvent) (c sp nu cn : Bool) :
    (runMutex evs).inFlight ≤ 1 ∧
    ((runMutex evs).coordBusy = true →
      mutexStep (runMutex evs) (.manualRead c) = (runMutex evs, .busyResult) ∧
      mutexStep (runMutex evs) (.manualWrite c) = (runMutex evs, .busyResult) ∧
      mutexStep (runMutex evs) (.tick true sp nu cn) = (runMutex evs, .skipped)) := by
  refine ⟨(runMutex_inv evs).2, fun hb => ⟨?_, ?_, ?_⟩⟩
  · simp [mutexStep, manualStep, hb]
  · simp [mutexStep, manualStep, hb]
  · simp [mutexStep, hb]

theorem C1_mutual_exclusion_witness :
    (runMutex [.manualRead true]).coordBusy = true ∧
    mutexStep (runMutex [.manualRead true]) (.manualRead true) =
      (runMutex [.manualRead true], .busyResult) ∧
    mutexStep (runMutex [.manualRead true]) (.tick true true true true) =
      (runMutex [.manualRead true], .skipped) :=
  ⟨by decide,
    ((C1_mutual_exclusion [.manualRead true] true true true true).2 (by decide)).1,
    ((C1_mutual_exclusion [.manualRead true] true true true true).2 (by decide)).2.2⟩

end BoxRFID
